import Mathlib

/-!
# Verification of the BinomialCalculator statistical core

Shallow embedding of the repository's statistical engine
(`services/distributions.py`, `services/model_selector.py`,
`services/data_processor.py`) and proofs about it.

Modelling conventions:
* Python `float` values are modelled as exact rationals (`ℚ`); floating-point
  rounding error is out of scope.
* Python `int` inputs are `ℤ` at the validation boundary; after validation the
  hypergeometric engine works over `ℕ` (validation guarantees nonnegativity).
* A Python function that can raise is embedded as `Except Err _`; each `raise`
  site gets its own `Err` constructor (carrying the numbers interpolated into
  its message, so distinct messages stay distinct).
* `math.sqrt` produces irrational values, so a value of the form `c·√b`
  (`c b : ℚ`, `b ≥ 0`) is represented by the pair `(c, b)`.  Zero is `(0, 1)`.
  Equality with `0`, comparisons against rational thresholds, and Python's
  `round(·, 6)` of such a value are all decidable from the pair and are
  implemented below (`sqrtRepLt`, `roundSqrt6`).
* Python's `round(q, d)` is round-half-to-even (`pyRound`).
-/

/-- Integer square root by fuelled binary recursion (`⌊√n⌋`); the fuel `n`
dominates the `log₄ n` recursion depth, and structural recursion on the fuel
keeps the function kernel-reducible for `decide`/`rfl`. -/
def isqrtAux : ℕ → ℕ → ℕ
  | 0, _ => 0
  | fuel + 1, m =>
    if m < 2 then m
    else
      let r := 2 * isqrtAux fuel (m / 4)
      if (r + 1) * (r + 1) ≤ m then r + 1 else r

/-- `⌊√n⌋` for natural `n`. -/
def isqrt (n : ℕ) : ℕ := isqrtAux n n

/-- `⌊√q⌋` for a nonnegative rational `q` (uses `⌊√q⌋ = ⌊√⌊q⌋⌋`). -/
def floorSqrtQ (q : ℚ) : ℕ := isqrt (⌊q⌋.toNat)

/-- Python's `round(q, d)`: round half to even at `d` decimal places. -/
def pyRound (q : ℚ) (d : ℕ) : ℚ :=
  let s : ℚ := q * (10 : ℚ) ^ d
  let f : ℤ := ⌊s⌋
  let frac : ℚ := s - f
  let r : ℤ :=
    if frac > 1/2 then f + 1
    else if frac < 1/2 then f
    else if f % 2 = 0 then f else f + 1
  (r : ℚ) / (10 : ℚ) ^ d

/-- Python's `round(c·√b, 6)` computed exactly from the representation
`(c, b)` (with `b ≥ 0`): `|c·√b|·10⁶ = √(c²·b·10¹²)`, whose nearest integer
(half to even) is found by comparing the radicand with `(m + 1/2)²`. -/
def roundSqrt6 (c b : ℚ) : ℚ :=
  let r : ℚ := c ^ 2 * b * 10 ^ 12
  let m : ℕ := floorSqrtQ r
  let v : ℤ :=
    if (m : ℚ) * m + m + 1/4 < r then m + 1
    else if r < (m : ℚ) * m + m + 1/4 then m
    else if m % 2 = 0 then m else m + 1
  (if c < 0 then -(v : ℚ) else (v : ℚ)) / 10 ^ 6

/-- Decides `c·√b < t` for `b > 0` (comparison of a represented square-root
value with a rational threshold, by squaring). -/
def sqrtRepLt (c b t : ℚ) : Bool :=
  if c < 0 then (if 0 ≤ t then true else decide (t ^ 2 < c ^ 2 * b))
  else decide (0 < t ∧ c ^ 2 * b < t ^ 2)

/-- One constructor per `raise` site of the embedded Python code; constructors
carry the integers interpolated into the corresponding message. -/
inductive Err where
  | binNPos                -- Binomial: n ≤ 0
  | binPRange              -- Binomial: p outside [0, 1]
  | binXRange (n : ℤ)      -- Binomial: x outside [0, n] ("entre 0 y {n}")
  | binNNeg                -- Binomial: N ≤ 0
  | binNGtN                -- Binomial: n > N
  | hypNPos                -- Hypergeometric: N ≤ 0
  | hypKNeg                -- Hypergeometric: K < 0
  | hypKGtN                -- Hypergeometric: K > N
  | hypnPos                -- Hypergeometric: n ≤ 0
  | hypnGtN                -- Hypergeometric: n > N
  | hypXNeg                -- Hypergeometric: x < 0
  | hypXGtN (n : ℤ)        -- Hypergeometric: x > n ("mayor que {n}")
  | hypXGtK (K : ℤ)        -- Hypergeometric: x > K ("mayor que K={K}")
  | selNPos                -- ModelSelector: N ≤ 0
  | selKNeg                -- ModelSelector: K < 0
  | selKGtN                -- ModelSelector: K > N
  | selnPos                -- ModelSelector: n ≤ 0
  | selnGtN                -- ModelSelector: n > N
  | zeroDivision           -- Python ZeroDivisionError
  | mathDomain             -- Python math domain error (sqrt of a negative)
  | columnNotFound         -- DataProcessor: column absent
  | emptyColumn            -- DataProcessor: no non-null data
  | categoryNotFound       -- DataProcessor: category has 0 occurrences
deriving DecidableEq

/-! ## Model Selector (`services/model_selector.py`) -/

inductive DistributionType where
  | binomial
  | hypergeometric
deriving DecidableEq

/-- `ModelDecision` dataclass.  The `reason`/`recommendation` strings are the
code's message templates; the interpolated percentage text is elided. -/
structure ModelDecision where
  distribution_type : DistributionType
  reason : String
  sample_ratio : ℚ
  threshold_used : ℚ
  recommendation : Option String
deriving DecidableEq

namespace ModelSelector

def THRESHOLD : ℚ := 1/5

def reasonHyper : String :=
  "Se usa Distribución Hipergeométrica porque el muestreo sin reemplazo afecta significativamente las probabilidades."

def reasonBinom : String :=
  "Se usa Distribución Binomial como aproximación porque el efecto del muestreo sin reemplazo es despreciable."

def recomBinom : String :=
  "Para mayor precisión, considere usar la Distribución Hipergeométrica."

/-- `ModelSelector.decide`. -/
def decide (N K n : ℤ) : Except Err ModelDecision :=
  if N ≤ 0 then .error .selNPos
  else if K < 0 then .error .selKNeg
  else if N < K then .error .selKGtN
  else if n ≤ 0 then .error .selnPos
  else if N < n then .error .selnGtN
  else
    let sample_ratio : ℚ := (n : ℚ) / (N : ℚ)
    if THRESHOLD ≤ sample_ratio then
      .ok { distribution_type := .hypergeometric, reason := reasonHyper,
            sample_ratio := pyRound sample_ratio 4, threshold_used := THRESHOLD,
            recommendation := none }
    else
      .ok { distribution_type := .binomial, reason := reasonBinom,
            sample_ratio := pyRound sample_ratio 4, threshold_used := THRESHOLD,
            recommendation := some recomBinom }

end ModelSelector

/-! ## Binomial engine (`services/distributions.py`, `BinomialDistribution`) -/

namespace BinomialDistribution

/-- `_validate_inputs(n, p, x, N)`: the five checks, in source order. -/
def validate_inputs (n : ℤ) (p : ℚ) (x N : Option ℤ) : Option Err :=
  if n ≤ 0 then some .binNPos
  else if p < 0 ∨ 1 < p then some .binPRange
  else if x.any (fun x0 => decide (x0 < 0 ∨ n < x0)) then some (.binXRange n)
  else if N.any (fun N0 => decide (N0 ≤ 0)) then some .binNNeg
  else if N.any (fun N0 => decide (N0 < n)) then some .binNGtN
  else none

/-- `_determine_population_type(n, N)`: `(is_finite, ratio)`. -/
def determine_population_type (n : ℤ) (N : Option ℤ) : Bool × Option ℚ :=
  match N with
  | none => (false, none)
  | some N0 =>
    let ratio : ℚ := (n : ℚ) / (N0 : ℚ)
    (decide ((1/20 : ℚ) < ratio), some ratio)

/-- Modelled from the spec: `scipy.stats.binom.pmf(x, n, p)` is the external
pmf `C(n,x)·p^x·(1-p)^(n-x)`, and `0` outside the support `0..n`. -/
def calculate_probability (n : ℤ) (p : ℚ) (x : ℤ) : ℚ :=
  if 0 ≤ x ∧ x ≤ n then
    (n.toNat.choose x.toNat : ℚ) * p ^ x.toNat * (1 - p) ^ (n - x).toNat
  else 0

def calculate_mean (n : ℤ) (p : ℚ) : ℚ := (n : ℚ) * p

def calculate_variance (n : ℤ) (p : ℚ) : ℚ := (n : ℚ) * p * (1 - p)

/-- `calculate_std(n, p, N)`.  `std = √variance` and
`adjusted_std = std·√((N−n)/(N−1))` are represented by their radicands
(`variance` and `variance·(N−n)/(N−1)`; the multiplicands are nonnegative for
validated inputs, so `√a·√b = √(a·b)`).  The integer division `(N−n)/(N−1)`
raises `ZeroDivisionError` when `N = 1` (then `n = 1`, so it is `0/0`). -/
def calculate_std (n : ℤ) (p : ℚ) (N : Option ℤ) :
    Except Err (ℚ × Option ℚ) :=
  let variance := calculate_variance n p
  match N with
  | some N0 =>
    if (1/20 : ℚ) < (n : ℚ) / (N0 : ℚ) then
      if (N0 : ℚ) - 1 = 0 then .error .zeroDivision
      else .ok (variance, some (variance * (((N0 : ℚ) - (n : ℚ)) / ((N0 : ℚ) - 1))))
    else .ok (variance, none)
  | none => .ok (variance, none)

/-- `calculate_skewness(n, p)`, value `(1−2p)/√(npq)` represented as
`(c, b) ↦ c·√b` with `b = 1/(npq)` (positive when `0 < p < 1`, `n ≥ 1`);
the `p ∈ {0, 1}` guard returns `0`, i.e. `(0, 1)`. -/
def calculate_skewness (n : ℤ) (p : ℚ) : ℚ × ℚ :=
  if p = 0 ∨ p = 1 then (0, 1)
  else (1 - 2 * p, 1 / ((n : ℚ) * p * (1 - p)))

def calculate_kurtosis (n : ℤ) (p : ℚ) : ℚ :=
  if p = 0 ∨ p = 1 then 0
  else (1 - 6 * p * (1 - p)) / ((n : ℚ) * p * (1 - p))

def sNegSig : String :=
  "Asimetría negativa significativa: La distribución tiene una cola más larga hacia la izquierda."
def sPosSig : String :=
  "Asimetría positiva significativa: La distribución tiene una cola más larga hacia la derecha."
def sApproxSym : String := "Distribución aproximadamente simétrica."
def sSlightNeg : String :=
  "Ligera asimetría negativa: La distribución tiende a inclinarse hacia la izquierda."
def sSlightPos : String :=
  "Ligera asimetría positiva: La distribución tiende a inclinarse hacia la derecha."

/-- `interpret_skewness(skewness)` on the `(c, b)` representation.
(The source's final `return "Simétrica"` is unreachable: it follows an
exhaustive `elif -0.5 <= skewness <= 0.5`.) -/
def interpret_skewness (c b : ℚ) : String :=
  if sqrtRepLt c b (-1/2) then sNegSig
  else if sqrtRepLt (-c) b (-1/2) then sPosSig   -- skewness > 0.5
  else if sqrtRepLt (if c < 0 then -c else c) b (1/10) then sApproxSym
  else if c < 0 then sSlightNeg
  else sSlightPos

def kLepto : String :=
  "Leptocúrtica: La distribución es más puntiaguda que una distribución normal (colas pesadas)."
def kPlaty : String :=
  "Platicúrtica: La distribución es más plana que una distribución normal (colas ligeras)."
def kMeso : String :=
  "Mesocúrtica: La distribución tiene una forma similar a la campana de Gauss."

def interpret_kurtosis (kurtosis : ℚ) : String :=
  if 1 < kurtosis then kLepto
  else if kurtosis < -1 then kPlaty
  else kMeso

/-- The result dictionary of `BinomialDistribution.calculate`. -/
structure Result where
  n : ℤ
  p : ℚ
  x : Option ℤ
  bigN : Option ℤ
  population_type : String
  population_ratio : Option ℚ
  mean : ℚ
  variance : ℚ
  std : ℚ
  adjusted_std : Option ℚ
  correction_factor : Option ℚ
  skewness : ℚ
  kurtosis : ℚ
  interp_skewness : String
  interp_kurtosis : String
  probability_x : Option ℚ
  probability_x_pct : Option ℚ
deriving DecidableEq

/-- `BinomialDistribution.calculate(**kwargs)`.  The dictionary entry
`round(adjusted_std, 6) if adjusted_std else None` tests the *float* for
truthiness, so an adjusted std equal to `0.0` is reported as `None`; on the
radicand representation `adjusted_std = 0` iff its radicand is `0`.
`correction_factor` recomputes `√((N−n)/(N−1))` (it cannot re-raise: when
`is_finite`, `calculate_std` already raised for `N = 1`). -/
def calculate (n : ℤ) (p : ℚ) (x N : Option ℤ) : Except Err Result :=
  match validate_inputs n p x N with
  | some e => .error e
  | none =>
    let ft := determine_population_type n N
    let mean := calculate_mean n p
    match calculate_std n p N with
    | .error e => .error e
    | .ok (stdSq, adjSq) =>
      let sk := calculate_skewness n p
      let kurt := calculate_kurtosis n p
      .ok {
        n := n, p := p, x := x, bigN := N,
        population_type := if ft.1 then "Finita" else "Infinita",
        population_ratio := ft.2,
        mean := pyRound mean 6,
        variance := pyRound (calculate_variance n p) 6,
        std := roundSqrt6 1 stdSq,
        adjusted_std :=
          match adjSq with
          | none => none
          | some a => if a = 0 then none else some (roundSqrt6 1 a),
        correction_factor :=
          if ft.1 then
            match N with
            | some N0 => some (roundSqrt6 1 (((N0 : ℚ) - (n : ℚ)) / ((N0 : ℚ) - 1)))
            | none => none
          else none,
        skewness := roundSqrt6 sk.1 sk.2,
        kurtosis := pyRound kurt 6,
        interp_skewness := interpret_skewness sk.1 sk.2,
        interp_kurtosis := interpret_kurtosis kurt,
        probability_x := x.map (fun x0 => pyRound (calculate_probability n p x0) 6),
        probability_x_pct := x.map (fun x0 => pyRound (calculate_probability n p x0 * 100) 4) }

end BinomialDistribution

/-! ## Hypergeometric engine (`services/distributions.py`,
`HypergeometricDistribution`).  Computation methods take `ℕ` arguments: they
are only reached after `_validate_inputs` has established nonnegativity. -/

namespace HypergeometricDistribution

/-- `_validate_inputs(N, K, n, x)`: the eight checks, in source order. -/
def validate_inputs (N K n : ℤ) (x : Option ℤ) : Option Err :=
  if N ≤ 0 then some .hypNPos
  else if K < 0 then some .hypKNeg
  else if N < K then some .hypKGtN
  else if n ≤ 0 then some .hypnPos
  else if N < n then some .hypnGtN
  else
    match x with
    | none => none
    | some x0 =>
      if x0 < 0 then some .hypXNeg
      else if n < x0 then some (.hypXGtN n)
      else if K < x0 then some (.hypXGtK K)
      else none

/-- Modelled from the spec: `scipy.stats.hypergeom.pmf(x, N, K, n)` is the
external pmf `C(K,x)·C(N−K,n−x)/C(N,n)`, and `0` outside the support
(`x > K` gives `C(K,x) = 0`, `x < n−(N−K)` gives `C(N−K,n−x) = 0`). -/
def calculate_probability (N K n x : ℕ) : ℚ :=
  if x ≤ n then ((K.choose x * (N - K).choose (n - x) : ℕ) : ℚ) / (N.choose n : ℚ)
  else 0

def calculate_mean (N K n : ℕ) : ℚ := (n : ℚ) * ((K : ℚ) / (N : ℚ))

/-- `calculate_variance(N, K, n) = n·p·q·(N−n)/(N−1)`; the division raises
`ZeroDivisionError` when `N = 1` (then `n = 1`, so `(N−n)/(N−1)` is `0/0`). -/
def calculate_variance (N K n : ℕ) : Except Err ℚ :=
  if (N : ℚ) - 1 = 0 then .error .zeroDivision
  else
    let p : ℚ := (K : ℚ) / (N : ℚ)
    .ok ((n : ℚ) * p * (1 - p) * (((N : ℚ) - (n : ℚ)) / ((N : ℚ) - 1)))

/-- `calculate_std = math.sqrt(variance)`, represented by its radicand
(`math.sqrt` would raise for a negative argument, modelled by `mathDomain`;
this cannot happen for validated inputs). -/
def calculate_std (N K n : ℕ) : Except Err ℚ :=
  match calculate_variance N K n with
  | .error e => .error e
  | .ok v => if v < 0 then .error .mathDomain else .ok v

/-- `calculate_skewness(N, K, n)`.  The code's value is
`((N−2K)·√(N−1)·(N−2n)) / (√(nK(N−K)(N−n))·(N−2))`, represented as
`(c, b) ↦ c·√b` with `c = (N−2K)(N−2n)/(N−2)` and
`b = (N−1)/(nK(N−K)(N−n))`.  The code's `denominator == 0` guard holds iff
the radicand `nK(N−K)(N−n)` is `0` or `N = 2`; both guard branches return
`0`, i.e. `(0, 1)`.  The two `math.sqrt` domain checks are modelled
faithfully (they cannot fire for validated inputs). -/
def calculate_skewness (N K n : ℕ) : Except Err (ℚ × ℚ) :=
  if N = 1 then .ok (0, 1)
  else if (N : ℚ) - 1 < 0 then .error .mathDomain
  else if (n : ℚ) * K * ((N : ℚ) - K) * ((N : ℚ) - n) < 0 then .error .mathDomain
  else if (n : ℚ) * K * ((N : ℚ) - K) * ((N : ℚ) - n) = 0 ∨ (N : ℚ) - 2 = 0 then
    .ok (0, 1)
  else
    .ok ((((N : ℚ) - 2 * K) * ((N : ℚ) - 2 * n)) / ((N : ℚ) - 2),
         ((N : ℚ) - 1) / ((n : ℚ) * K * ((N : ℚ) - K) * ((N : ℚ) - n)))

/-- `calculate_kurtosis(N, K, n)`.  After the `N <= 3` guard, `term1`
divides by `n·(N−n)` with no guard: that raises `ZeroDivisionError` whenever
`n = N` (the code's own `denominator == 0` short-circuit sits *after* this
division).  The final `/(N−1)` in `denominator` cannot divide by zero here
(`N ≥ 4`). -/
def calculate_kurtosis (N K n : ℕ) : Except Err ℚ :=
  if N ≤ 3 then .ok 0
  else if (n : ℚ) * ((N : ℚ) - n) = 0 then .error .zeroDivision
  else
    let Nq : ℚ := N
    let Kq : ℚ := K
    let nq : ℚ := n
    let term1 := (Nq - 1) * (Nq * (Nq + 1) - 6 * Kq * (Nq - Kq) * (Nq - nq) / (nq * (Nq - nq)))
    let term2 := 3 * nq * Kq * (Nq - Kq) * (Nq - nq) / (nq * (Nq - nq))
    let numerator := term1 - term2
    let denominator := nq * Kq * (Nq - Kq) * (Nq - nq) * (Nq - 2) * (Nq - 3) / (Nq - 1)
    if denominator = 0 then .ok 0
    else .ok ((Nq + 1) * numerator / denominator)

/-- The accumulation loop of `calculate_median`: starting at index `x` with
running sum `acc`, return the first index whose running total reaches `1/2`
(`none` when the fuel runs out, mirroring loop exhaustion). -/
def firstReach (f : ℕ → ℚ) : ℕ → ℚ → ℕ → Option ℕ
  | 0, _, _ => none
  | fuel + 1, acc, x =>
    if 1/2 ≤ acc + f x then some x else firstReach f fuel (acc + f x) (x + 1)

/-- `calculate_median(N, K, n)`: walk `x = 0..min(n, K)` accumulating the pmf
until the cumulative sum reaches `≥ 1/2`; fall back to `int(mean)` (floor:
the mean is nonnegative) if the loop exhausts.  The code's `prob_floor` /
`prob_ceil` locals are computed and never used (and cannot raise); they are
omitted. -/
def calculate_median (N K n : ℕ) : ℕ :=
  (firstReach (calculate_probability N K n) (min n K + 1) 0 0).getD
    (⌊calculate_mean N K n⌋.toNat)

/-- The cumulative distribution accumulated by the median loop:
`∑ i ≤ x, pmf i`. -/
def cdf (N K n x : ℕ) : ℚ :=
  ∑ i in Finset.range (x + 1), calculate_probability N K n i

def sNeg : String :=
  "Sesgo Negativo (Asimetría izquierda): La media es menor que la mediana, indicando una cola más larga hacia valores menores."
def sPos : String :=
  "Sesgo Positivo (Asimetría derecha): La media es mayor que la mediana, indicando una cola más larga hacia valores mayores."
def sNul : String :=
  "Sesgo Nulo (Simétrica): La media y la mediana son aproximadamente iguales, indicando una distribución simétrica."

/-- `interpret_skewness_by_median(N, K, n) -> (interpretation, round(mean, 6), median)`. -/
def interpret_skewness_by_median (N K n : ℕ) : String × ℚ × ℕ :=
  let mean := calculate_mean N K n
  let median := calculate_median N K n
  let interp :=
    if mean < (median : ℚ) - 1/10 then sNeg
    else if (median : ℚ) + 1/10 < mean then sPos
    else sNul
  (interp, pyRound mean 6, median)

def interpret_kurtosis (kurtosis : ℚ) : String :=
  if 1 < kurtosis then BinomialDistribution.kLepto
  else if kurtosis < -1 then BinomialDistribution.kPlaty
  else BinomialDistribution.kMeso

/-- The result dictionary of `HypergeometricDistribution.calculate`. -/
structure Result where
  bigN : ℤ
  K : ℤ
  n : ℤ
  x : Option ℤ
  p : ℚ
  population_type : String
  sample_ratio : ℚ
  mean : ℚ
  median : ℕ
  variance : ℚ
  std : ℚ
  skewness : ℚ
  kurtosis : ℚ
  interp_skewness : String
  interp_kurtosis : String
  probability_x : Option ℚ
  probability_x_pct : Option ℚ
deriving DecidableEq

/-- `HypergeometricDistribution.calculate(**kwargs)`: validate, then compute
mean, variance, std, skewness, kurtosis, median/interpretation, in source
order (so e.g. the variance `ZeroDivisionError` at `N = 1` fires before any
later step), and assemble the rounded result dictionary. -/
def calculate (N K n : ℤ) (x : Option ℤ) : Except Err Result :=
  match validate_inputs N K n x with
  | some e => .error e
  | none =>
    let Nn := N.toNat
    let Kn := K.toNat
    let nn := n.toNat
    let p : ℚ := (K : ℚ) / (N : ℚ)
    let mean := calculate_mean Nn Kn nn
    match calculate_variance Nn Kn nn with
    | .error e => .error e
    | .ok variance =>
      match calculate_std Nn Kn nn with
      | .error e => .error e
      | .ok stdSq =>
        match calculate_skewness Nn Kn nn with
        | .error e => .error e
        | .ok sk =>
          match calculate_kurtosis Nn Kn nn with
          | .error e => .error e
          | .ok kurt =>
            let ism := interpret_skewness_by_median Nn Kn nn
            .ok {
              bigN := N, K := K, n := n, x := x,
              p := pyRound p 6,
              population_type := "Finita",
              sample_ratio := pyRound ((n : ℚ) / (N : ℚ)) 4,
              mean := pyRound mean 6,
              median := ism.2.2,
              variance := pyRound variance 6,
              std := roundSqrt6 1 stdSq,
              skewness := roundSqrt6 sk.1 sk.2,
              kurtosis := pyRound kurt 6,
              interp_skewness := ism.1,
              interp_kurtosis := interpret_kurtosis kurt,
              probability_x :=
                x.map (fun x0 => pyRound (calculate_probability Nn Kn nn x0.toNat) 6),
              probability_x_pct :=
                x.map (fun x0 => pyRound (calculate_probability Nn Kn nn x0.toNat * 100) 4) }

end HypergeometricDistribution

/-! ## Categorical column analyzer (`services/data_processor.py`) -/

namespace DataProcessor

/-- The result of `analyze_categorical_column` (the `categories` frequency
mapping is derivable from the column and is not needed by any claim). -/
structure CatAnalysis where
  bigN : ℕ
  K : ℕ
  p : ℚ
  success_category : String
  column_name : String
deriving DecidableEq

/-- `analyze_categorical_column(df, column_name, success_category)`.  The
dataframe is a list of named columns whose cells are nullable strings.
`dropna` keeps the non-null cells; `value_counts()[success_category]`
(via `categories.get(success_category, 0)`) is the count of cells equal to
`success_category`. -/
def analyze_categorical_column (df : List (String × List (Option String)))
    (column_name success_category : String) : Except Err CatAnalysis :=
  match df.find? (fun c => c.1 == column_name) with
  | none => .error .columnNotFound
  | some col =>
    let col_data := col.2.filterMap id
    let N := col_data.length
    if N = 0 then .error .emptyColumn
    else
      let K := col_data.count success_category
      if K = 0 then .error .categoryNotFound
      else
        .ok { bigN := N, K := K, p := pyRound ((K : ℚ) / (N : ℚ)) 6,
              success_category := success_category, column_name := column_name }

end DataProcessor

/-! ## Claims -/

/-- C1: for every valid input (N>0, 0≤K≤N, 0<n≤N), `ModelSelector.decide`
succeeds; it chooses Hypergeometric iff `n/N ≥ 0.20`, otherwise Binomial with
a non-null recommendation string; when Hypergeometric is chosen the
recommendation is absent. -/
theorem C1_model_selector_decide (N K n : ℤ)
    (hN : 0 < N) (hK0 : 0 ≤ K) (hKN : K ≤ N) (hn0 : 0 < n) (hnN : n ≤ N) :
    ∃ d, ModelSelector.decide N K n = .ok d ∧
      (d.distribution_type = .hypergeometric ↔ (1/5 : ℚ) ≤ (n : ℚ) / (N : ℚ)) ∧
      (d.distribution_type = .binomial ↔ (n : ℚ) / (N : ℚ) < 1/5) ∧
      (d.distribution_type = .binomial → d.recommendation ≠ none) ∧
      (d.distribution_type = .hypergeometric → d.recommendation = none) := by
  unfold ModelSelector.decide
  rw [if_neg (by omega), if_neg (by omega), if_neg (by omega), if_neg (by omega),
    if_neg (by omega)]
  by_cases h : ModelSelector.THRESHOLD ≤ (n : ℚ) / (N : ℚ)
  · refine ⟨_, by rw [if_pos h], ?_, ?_, ?_, ?_⟩ <;>
      simp_all [ModelSelector.THRESHOLD, not_le, le_iff_lt_or_eq]
  · refine ⟨_, by rw [if_neg h], ?_, ?_, ?_, ?_⟩ <;>
      simp_all [ModelSelector.THRESHOLD, not_le]

/-- C1 witness: at `(N, K, n) = (10, 2, 2)` the ratio is exactly the
threshold `0.20`, so Hypergeometric is chosen and the recommendation is
absent. -/
theorem C1_witness :
    ∃ d, ModelSelector.decide 10 2 2 = .ok d ∧
      (d.distribution_type = .hypergeometric ↔ (1/5 : ℚ) ≤ (2 : ℚ) / (10 : ℚ)) ∧
      (d.distribution_type = .binomial ↔ (2 : ℚ) / (10 : ℚ) < 1/5) ∧
      (d.distribution_type = .binomial → d.recommendation ≠ none) ∧
      (d.distribution_type = .hypergeometric → d.recommendation = none) := by
  have h := C1_model_selector_decide 10 2 2 (by omega) (by omega) (by omega)
    (by omega) (by omega)
  simpa using h

/-- C2: the claim that `calculate_kurtosis` never raises a division error on
valid inputs is violated by the code: at the valid input `N = 4, K = 1,
n = 4` (a full sample, `n = N`), the intermediate term
`6·K·(N−K)·(N−n)/(n·(N−n))` divides by `n·(N−n) = 0` *before* the
`denominator == 0` short-circuit is reached, raising `ZeroDivisionError`. -/
theorem C2_kurtosis_division_error_at_full_sample :
    HypergeometricDistribution.calculate_kurtosis 4 1 4 = .error .zeroDivision := by
  unfold HypergeometricDistribution.calculate_kurtosis
  norm_num

/-- C7: boundary validation.  For any Binomial parameters with `n > 0`,
`0 ≤ p ≤ 1` and an optional population `N ≥ n > 0`: `x = 0` and `x = n` are
accepted, while `x = −1` and `x = n + 1` are rejected with the x-range
`ValidationError` (which names `n`).  For any valid Hypergeometric
parameters with `K + 1 ≤ n`, `x = K + 1` is rejected even though `x ≤ n`,
and the violation reported is the distinct x>K condition (naming `K`), not
the x>n condition. -/
theorem C7_boundary_validation (n : ℤ) (p : ℚ) (N : Option ℤ)
    (Nh Kh nh : ℤ)
    (hn : 0 < n) (hp0 : 0 ≤ p) (hp1 : p ≤ 1)
    (hN : ∀ N0, N = some N0 → 0 < N0 ∧ n ≤ N0)
    (hNh : 0 < Nh) (hKh0 : 0 ≤ Kh) (hKhN : Kh ≤ Nh) (hnh0 : 0 < nh)
    (hnhN : nh ≤ Nh) (hKn : Kh + 1 ≤ nh) :
    BinomialDistribution.validate_inputs n p (some 0) N = none ∧
    BinomialDistribution.validate_inputs n p (some n) N = none ∧
    BinomialDistribution.validate_inputs n p (some (-1)) N = some (.binXRange n) ∧
    BinomialDistribution.validate_inputs n p (some (n + 1)) N = some (.binXRange n) ∧
    HypergeometricDistribution.validate_inputs Nh Kh nh (some (Kh + 1)) =
      some (.hypXGtK Kh) ∧
    (Err.hypXGtK Kh ≠ Err.hypXGtN nh) := by
  have hpr : ¬(p < 0 ∨ 1 < p) := by
    push_neg
    exact ⟨hp0, hp1⟩
  refine ⟨?_, ?_, ?_, ?_, ?_, by simp⟩
  · unfold BinomialDistribution.validate_inputs
    rw [if_neg (by omega), if_neg hpr, if_neg (by simp; omega)]
    match N with
    | none => simp
    | some N0 =>
      obtain ⟨h1, h2⟩ := hN N0 rfl
      rw [if_neg (by simp; omega), if_neg (by simp; omega)]
  · unfold BinomialDistribution.validate_inputs
    rw [if_neg (by omega), if_neg hpr, if_neg (by simp; omega)]
    match N with
    | none => simp
    | some N0 =>
      obtain ⟨h1, h2⟩ := hN N0 rfl
      rw [if_neg (by simp; omega), if_neg (by simp; omega)]
  · unfold BinomialDistribution.validate_inputs
    rw [if_neg (by omega), if_neg hpr, if_pos (by simp)]
  · unfold BinomialDistribution.validate_inputs
    rw [if_neg (by omega), if_neg hpr, if_pos (by simp)]
  · unfold HypergeometricDistribution.validate_inputs
    rw [if_neg (by omega), if_neg (by omega), if_neg (by omega), if_neg (by omega),
      if_neg (by omega)]
    simp only
    rw [if_neg (by omega), if_neg (by omega), if_pos (by omega)]

/-- C7 witness: binomial `n = 3, p = 1/2` (no population), hypergeometric
`N = 10, K = 2, n = 5, x = 3`. -/
theorem C7_witness :
    BinomialDistribution.validate_inputs 3 (1/2) (some 0) none = none ∧
    BinomialDistribution.validate_inputs 3 (1/2) (some 3) none = none ∧
    BinomialDistribution.validate_inputs 3 (1/2) (some (-1)) none =
      some (.binXRange 3) ∧
    BinomialDistribution.validate_inputs 3 (1/2) (some (3 + 1)) none =
      some (.binXRange 3) ∧
    HypergeometricDistribution.validate_inputs 10 2 5 (some (2 + 1)) =
      some (.hypXGtK 2) ∧
    (Err.hypXGtK 2 ≠ Err.hypXGtN 5) := by
  exact C7_boundary_validation 3 (1/2) none 10 2 5 (by omega) (by norm_num)
    (by norm_num) (by intro N0 h; cases h) (by omega) (by omega) (by omega)
    (by omega) (by omega) (by omega)

/-- C10: for every valid `(N, K, n)` the hypergeometric skewness computation
is total (never raises), and it returns `0` (the pair `(0, 1)`) not only when
`N = 1` but whenever the code's denominator `√(nK(N−K)(N−n))·(N−2)` is `0`:
also for `K = 0`, `K = N`, `n = N` and `N = 2`. -/
theorem C10_skewness_total_and_zero_cases (N K n : ℕ)
    (hN : 1 ≤ N) (hK : K ≤ N) (hn : 1 ≤ n) (hnN : n ≤ N) :
    ∃ v, HypergeometricDistribution.calculate_skewness N K n = .ok v ∧
      ((N = 1 ∨ K = 0 ∨ K = N ∨ n = N ∨ N = 2) → v = (0, 1)) := by
  unfold HypergeometricDistribution.calculate_skewness
  by_cases h1 : N = 1
  · rw [if_pos h1]
    exact ⟨_, rfl, fun _ => rfl⟩
  · rw [if_neg h1]
    have hN1 : (1 : ℚ) ≤ (N : ℚ) := by exact_mod_cast hN
    have hKq : (K : ℚ) ≤ (N : ℚ) := by exact_mod_cast hK
    have hnq : (n : ℚ) ≤ (N : ℚ) := by exact_mod_cast hnN
    have c0 : ¬((N : ℚ) - 1 < 0) := by push_neg; linarith
    have hrad : (0 : ℚ) ≤ (n : ℚ) * K * ((N : ℚ) - K) * ((N : ℚ) - n) := by
      have t1 : (0 : ℚ) ≤ (n : ℚ) * K := by positivity
      have t2 : (0 : ℚ) ≤ (N : ℚ) - K := by linarith
      have t3 : (0 : ℚ) ≤ (N : ℚ) - n := by linarith
      exact mul_nonneg (mul_nonneg t1 t2) t3
    rw [if_neg c0, if_neg (not_lt.mpr hrad)]
    by_cases h2 : (n : ℚ) * K * ((N : ℚ) - K) * ((N : ℚ) - n) = 0 ∨ (N : ℚ) - 2 = 0
    · rw [if_pos h2]
      exact ⟨_, rfl, fun _ => rfl⟩
    · rw [if_neg h2]
      refine ⟨_, rfl, fun hcase => absurd ?_ h2⟩
      rcases hcase with h | h | h | h | h
      · exact absurd h h1
      · subst h; left; push_cast; ring
      · subst h; left; ring
      · subst h; left; ring
      · subst h; right; norm_num

/-- C10 witness: `(N, K, n) = (2, 1, 1)` is valid and hits the `N = 2`
zero-denominator case. -/
theorem C10_witness :
    ∃ v, HypergeometricDistribution.calculate_skewness 2 1 1 = .ok v ∧
      ((2 = 1 ∨ 1 = 0 ∨ 1 = 2 ∨ 1 = 2 ∨ 2 = 2) → v = (0, 1)) := by
  exact C10_skewness_total_and_zero_cases 2 1 1 (by omega) (by omega) (by omega)
    (by omega)

/-- C9: for every valid `(N, K, n)`, the hypergeometric skewness
interpretation is decided by comparing the exact mean with the enumerated
median: mean below `median − 0.1` produces the negative-skew (left tail)
text, mean above `median + 0.1` the positive-skew (right tail) text, and
otherwise the symmetric text. -/
theorem C9_skewness_interpretation_by_median (N K n : ℕ)
    (hN : 1 ≤ N) (hK : K ≤ N) (hn : 1 ≤ n) (hnN : n ≤ N) :
    (HypergeometricDistribution.calculate_mean N K n <
        (HypergeometricDistribution.calculate_median N K n : ℚ) - 1/10 →
      (HypergeometricDistribution.interpret_skewness_by_median N K n).1 =
        HypergeometricDistribution.sNeg) ∧
    ((HypergeometricDistribution.calculate_median N K n : ℚ) + 1/10 <
        HypergeometricDistribution.calculate_mean N K n →
      (HypergeometricDistribution.interpret_skewness_by_median N K n).1 =
        HypergeometricDistribution.sPos) ∧
    ((HypergeometricDistribution.calculate_median N K n : ℚ) - 1/10 ≤
        HypergeometricDistribution.calculate_mean N K n →
      HypergeometricDistribution.calculate_mean N K n ≤
        (HypergeometricDistribution.calculate_median N K n : ℚ) + 1/10 →
      (HypergeometricDistribution.interpret_skewness_by_median N K n).1 =
        HypergeometricDistribution.sNul) := by
  unfold HypergeometricDistribution.interpret_skewness_by_median
  refine ⟨fun h => ?_, fun h => ?_, fun h1 h2 => ?_⟩
  · simp only [if_pos h]
  · have hne : ¬(HypergeometricDistribution.calculate_mean N K n <
        (HypergeometricDistribution.calculate_median N K n : ℚ) - 1/10) := by linarith
    simp only [if_neg hne, if_pos h]
  · have hne1 : ¬(HypergeometricDistribution.calculate_mean N K n <
        (HypergeometricDistribution.calculate_median N K n : ℚ) - 1/10) := by linarith
    have hne2 : ¬((HypergeometricDistribution.calculate_median N K n : ℚ) + 1/10 <
        HypergeometricDistribution.calculate_mean N K n) := by linarith
    simp only [if_neg hne1, if_neg hne2]

/-- C9 witness at `(N, K, n) = (5, 2, 2)`. -/
theorem C9_witness :
    (HypergeometricDistribution.calculate_mean 5 2 2 <
        (HypergeometricDistribution.calculate_median 5 2 2 : ℚ) - 1/10 →
      (HypergeometricDistribution.interpret_skewness_by_median 5 2 2).1 =
        HypergeometricDistribution.sNeg) ∧
    ((HypergeometricDistribution.calculate_median 5 2 2 : ℚ) + 1/10 <
        HypergeometricDistribution.calculate_mean 5 2 2 →
      (HypergeometricDistribution.interpret_skewness_by_median 5 2 2).1 =
        HypergeometricDistribution.sPos) ∧
    ((HypergeometricDistribution.calculate_median 5 2 2 : ℚ) - 1/10 ≤
        HypergeometricDistribution.calculate_mean 5 2 2 →
      HypergeometricDistribution.calculate_mean 5 2 2 ≤
        (HypergeometricDistribution.calculate_median 5 2 2 : ℚ) + 1/10 →
      (HypergeometricDistribution.interpret_skewness_by_median 5 2 2).1 =
        HypergeometricDistribution.sNul) := by
  exact C9_skewness_interpretation_by_median 5 2 2 (by omega) (by omega) (by omega)
    (by omega)

/-- C8: `analyze_categorical_column` fails with the column-not-found error
when the named column is absent, with the empty-column error when all of the
column's values are null, and with the category-not-found error when the
success category occurs zero times among the non-null values; otherwise it
returns `N` = the non-null count, `K` = the count of values equal to the
success category, and `p = K/N` rounded to 6 decimals. -/
theorem C8_analyze_categorical_column (df : List (String × List (Option String)))
    (column_name success_category : String) :
    (df.find? (fun c => c.1 == column_name) = none →
      DataProcessor.analyze_categorical_column df column_name success_category =
        .error .columnNotFound) ∧
    (∀ col, df.find? (fun c => c.1 == column_name) = some col →
      (col.2.filterMap id = [] →
        DataProcessor.analyze_categorical_column df column_name success_category =
          .error .emptyColumn) ∧
      (col.2.filterMap id ≠ [] →
        (col.2.filterMap id).count success_category = 0 →
        DataProcessor.analyze_categorical_column df column_name success_category =
          .error .categoryNotFound) ∧
      (col.2.filterMap id ≠ [] →
        (col.2.filterMap id).count success_category ≠ 0 →
        DataProcessor.analyze_categorical_column df column_name success_category =
          .ok { bigN := (col.2.filterMap id).length,
                K := (col.2.filterMap id).count success_category,
                p := pyRound (((col.2.filterMap id).count success_category : ℚ) /
                  ((col.2.filterMap id).length : ℚ)) 6,
                success_category := success_category,
                column_name := column_name })) := by
  constructor
  · intro h
    unfold DataProcessor.analyze_categorical_column
    rw [h]
  · intro col h
    refine ⟨fun he => ?_, fun hne hz => ?_, fun hne hnz => ?_⟩
    · unfold DataProcessor.analyze_categorical_column
      rw [h]
      simp [he]
    · unfold DataProcessor.analyze_categorical_column
      rw [h]
      simp only
      rw [if_neg (by simpa using hne), if_pos hz]
    · unfold DataProcessor.analyze_categorical_column
      rw [h]
      simp only
      rw [if_neg (by simpa using hne), if_neg hnz]

/-- C8 witness on a concrete dataframe: a present column with nulls, a
missing category, a missing column, and an all-null column. -/
theorem C8_witness :
    DataProcessor.analyze_categorical_column
        [("c", [some "a", none, some "b", some "a"])] "c" "a" =
      .ok { bigN := 3, K := 2, p := pyRound ((2 : ℚ) / (3 : ℚ)) 6,
            success_category := "a", column_name := "c" } ∧
    DataProcessor.analyze_categorical_column
        [("c", [some "a", none, some "b", some "a"])] "c" "z" =
      .error .categoryNotFound ∧
    DataProcessor.analyze_categorical_column
        [("c", [some "a", none, some "b", some "a"])] "d" "a" =
      .error .columnNotFound ∧
    DataProcessor.analyze_categorical_column [("e", [none, none])] "e" "a" =
      .error .emptyColumn := by
  refine ⟨?_, ?_, ?_, ?_⟩
  · have h := (C8_analyze_categorical_column
      [("c", [some "a", none, some "b", some "a"])] "c" "a").2
      ("c", [some "a", none, some "b", some "a"]) (by rfl)
    exact h.2.2 (by simp) (by simp)
  · have h := (C8_analyze_categorical_column
      [("c", [some "a", none, some "b", some "a"])] "c" "z").2
      ("c", [some "a", none, some "b", some "a"]) (by rfl)
    exact h.2.1 (by simp) (by simp)
  · exact (C8_analyze_categorical_column
      [("c", [some "a", none, some "b", some "a"])] "d" "a").1 (by rfl)
  · have h := (C8_analyze_categorical_column [("e", [none, none])] "e" "a").2
      ("e", [none, none]) (by rfl)
    exact h.1 (by simp)

/-- C3 counterexample: at the valid degenerate input `N = 1, K = 1, n = 1`
(no `x`), `HypergeometricDistribution.calculate` does *not* return a result:
`calculate_variance` divides `(N−n)/(N−1) = 0/0` and raises
`ZeroDivisionError`, contradicting the claim that N=1 is handled by
zero-return branches. -/
theorem C3_counterexample :
    HypergeometricDistribution.calculate 1 1 1 none = .error .zeroDivision := by
  have hvar : HypergeometricDistribution.calculate_variance 1 1 1 =
      .error .zeroDivision := by
    unfold HypergeometricDistribution.calculate_variance
    norm_num
  unfold HypergeometricDistribution.calculate
  rw [show HypergeometricDistribution.validate_inputs 1 1 1 none = none from by decide]
  simp only [Int.toNat_one, hvar]

/-- C3 amended: for every input with `N = 1` that passes validation (hence
`n = 1`, `K ∈ {0, 1}`, and `x` absent or within bounds), `calculate` raises
`ZeroDivisionError` from the variance formula (whose factor `(N−n)/(N−1)` is
`0/0`) instead of returning a result; the zero-return degenerate branches
exist only in `calculate_skewness` (N=1) and `calculate_kurtosis` (N≤3) and
are never reached. -/
theorem C3_amended_variance_raises_at_N1 (K : ℤ) (x : Option ℤ)
    (hK : K = 0 ∨ K = 1)
    (hx : x = none ∨ x = some 0 ∨ (x = some 1 ∧ K = 1)) :
    HypergeometricDistribution.calculate 1 K 1 x = .error .zeroDivision := by
  have hvar : ∀ k : ℕ, HypergeometricDistribution.calculate_variance 1 k 1 =
      .error .zeroDivision := by
    intro k
    unfold HypergeometricDistribution.calculate_variance
    norm_num
  have hgen : ∀ (K0 : ℤ) (x0 : Option ℤ),
      HypergeometricDistribution.validate_inputs 1 K0 1 x0 = none →
      HypergeometricDistribution.calculate 1 K0 1 x0 = .error .zeroDivision := by
    intro K0 x0 hv
    unfold HypergeometricDistribution.calculate
    rw [hv]
    simp only [Int.toNat_one, hvar]
  rcases hx with hx | hx | ⟨hx, hK1⟩
  · subst hx
    rcases hK with hK | hK <;> subst hK <;> exact hgen _ _ (by decide)
  · subst hx
    rcases hK with hK | hK <;> subst hK <;> exact hgen _ _ (by decide)
  · subst hx
    subst hK1
    exact hgen _ _ (by decide)

/-- C3 witness: the amended statement at `K = 1, x = some 1`. -/
theorem C3_witness :
    HypergeometricDistribution.calculate 1 1 1 (some 1) = .error .zeroDivision :=
  C3_amended_variance_raises_at_N1 1 (some 1) (Or.inr rfl)
    (Or.inr (Or.inr ⟨rfl, rfl⟩))

/-- Helper: `validate_inputs` passes exactly when the claim-level validity
conditions hold. -/
theorem bin_validate_none (n : ℤ) (p : ℚ) (x N : Option ℤ)
    (hn : 0 < n) (hp0 : 0 ≤ p) (hp1 : p ≤ 1)
    (hx : ∀ x0, x = some x0 → 0 ≤ x0 ∧ x0 ≤ n)
    (hN : ∀ N0, N = some N0 → 0 < N0 ∧ n ≤ N0) :
    BinomialDistribution.validate_inputs n p x N = none := by
  have hpr : ¬(p < 0 ∨ 1 < p) := by
    push_neg
    exact ⟨hp0, hp1⟩
  match x, N with
  | none, none =>
    unfold BinomialDistribution.validate_inputs
    rw [if_neg (by omega), if_neg hpr]
    simp
  | none, some N0 =>
    obtain ⟨u, v⟩ := hN N0 rfl
    unfold BinomialDistribution.validate_inputs
    rw [if_neg (by omega), if_neg hpr]
    rw [if_neg (by simp), if_neg (by simp; omega), if_neg (by simp; omega)]
  | some x0, none =>
    obtain ⟨u, v⟩ := hx x0 rfl
    unfold BinomialDistribution.validate_inputs
    rw [if_neg (by omega), if_neg hpr, if_neg (by simp; omega)]
    simp
  | some x0, some N0 =>
    obtain ⟨u, v⟩ := hx x0 rfl
    obtain ⟨u2, v2⟩ := hN N0 rfl
    unfold BinomialDistribution.validate_inputs
    rw [if_neg (by omega), if_neg hpr, if_neg (by simp; omega),
      if_neg (by simp; omega), if_neg (by simp; omega)]

/-- Helper: the unfolding equation of `BinomialDistribution.calculate` once
validation passes and `calculate_std` succeeds. -/
theorem bin_calculate_eq (n : ℤ) (p : ℚ) (x N : Option ℤ) (a : ℚ) (b : Option ℚ)
    (hv : BinomialDistribution.validate_inputs n p x N = none)
    (hs : BinomialDistribution.calculate_std n p N = .ok (a, b)) :
    BinomialDistribution.calculate n p x N = .ok {
      n := n, p := p, x := x, bigN := N,
      population_type :=
        if (BinomialDistribution.determine_population_type n N).1 then "Finita"
        else "Infinita",
      population_ratio := (BinomialDistribution.determine_population_type n N).2,
      mean := pyRound (BinomialDistribution.calculate_mean n p) 6,
      variance := pyRound (BinomialDistribution.calculate_variance n p) 6,
      std := roundSqrt6 1 a,
      adjusted_std :=
        match b with
        | none => none
        | some q => if q = 0 then none else some (roundSqrt6 1 q),
      correction_factor :=
        if (BinomialDistribution.determine_population_type n N).1 then
          match N with
          | some N0 => some (roundSqrt6 1 (((N0 : ℚ) - (n : ℚ)) / ((N0 : ℚ) - 1)))
          | none => none
        else none,
      skewness := roundSqrt6 (BinomialDistribution.calculate_skewness n p).1
        (BinomialDistribution.calculate_skewness n p).2,
      kurtosis := pyRound (BinomialDistribution.calculate_kurtosis n p) 6,
      interp_skewness :=
        BinomialDistribution.interpret_skewness
          (BinomialDistribution.calculate_skewness n p).1
          (BinomialDistribution.calculate_skewness n p).2,
      interp_kurtosis :=
        BinomialDistribution.interpret_kurtosis
          (BinomialDistribution.calculate_kurtosis n p),
      probability_x :=
        x.map (fun x0 => pyRound (BinomialDistribution.calculate_probability n p x0) 6),
      probability_x_pct :=
        x.map (fun x0 =>
          pyRound (BinomialDistribution.calculate_probability n p x0 * 100) 4) } := by
  rcases b with _ | q <;> rcases N with _ | N0 <;>
    (unfold BinomialDistribution.calculate; simp only [hv, hs])

/-- C4 counterexample: at the valid input `n = 2, p = 1/2, N = 2` (a full
sample, `n/N = 1 > 0.05`) the population is classified "Finite", but
`adjusted_std` is *absent*: the adjusted value `std·√((N−n)/(N−1)) = 0` is
falsy in Python, so `round(adjusted_std, 6) if adjusted_std else None`
reports `None`, contradicting the claim that the statistics record contains
it. -/
theorem C4_counterexample :
    (BinomialDistribution.calculate 2 (1/2) none (some 2)).map
      (fun r => (r.population_type, r.adjusted_std)) = .ok ("Finita", none) := by
  have hv : BinomialDistribution.validate_inputs 2 (1/2) none (some 2) = none := by
    unfold BinomialDistribution.validate_inputs
    norm_num
  have hs : BinomialDistribution.calculate_std 2 (1/2) (some 2) =
      .ok ((2 : ℚ) * (1/2) * (1 - 1/2), some 0) := by
    unfold BinomialDistribution.calculate_std BinomialDistribution.calculate_variance
    have h1 : (1/20 : ℚ) < ((2 : ℤ) : ℚ) / ((2 : ℤ) : ℚ) := by norm_num
    have h2 : ¬(((2 : ℤ) : ℚ) - 1 = 0) := by norm_num
    simp only [if_pos h1, if_neg h2]
    norm_num
  rw [bin_calculate_eq 2 (1/2) none (some 2) ((2 : ℚ) * (1/2) * (1 - 1/2)) (some 0)
    hv hs]
  simp only [Except.map, BinomialDistribution.determine_population_type]
  norm_num

/-- C4 amended: for every valid binomial input with `N` supplied and `N ≥ 2`
(at `n = N = 1` the correction factor raises `ZeroDivisionError` instead):
if `n/N > 0.05` the result's `population_type` is "Finita" and
`adjusted_std` equals `std·√((N−n)/(N−1))` (radicand
`variance·(N−n)/(N−1)`, rounded to 6 decimals) *provided that value is
nonzero* — when it is `0` (e.g. `n = N` or `p ∈ {0, 1}`) the falsy-float
test drops it to `None`; if `n/N ≤ 0.05`, or `N` is absent, the
`population_type` is "Infinita" and `adjusted_std` is absent. -/
theorem C4_amended_finite_population_adjusted_std (n N0 : ℤ) (p : ℚ)
    (x : Option ℤ) (hn : 0 < n) (hp0 : 0 ≤ p) (hp1 : p ≤ 1)
    (hx : ∀ x0, x = some x0 → 0 ≤ x0 ∧ x0 ≤ n)
    (hnN : n ≤ N0) (hN2 : 2 ≤ N0) :
    (∃ r, BinomialDistribution.calculate n p x (some N0) = .ok r ∧
      ((1/20 : ℚ) < (n : ℚ) / (N0 : ℚ) →
        r.population_type = "Finita" ∧
        r.adjusted_std =
          (if BinomialDistribution.calculate_variance n p *
              (((N0 : ℚ) - (n : ℚ)) / ((N0 : ℚ) - 1)) = 0 then none
           else some (roundSqrt6 1 (BinomialDistribution.calculate_variance n p *
              (((N0 : ℚ) - (n : ℚ)) / ((N0 : ℚ) - 1)))))) ∧
      ((n : ℚ) / (N0 : ℚ) ≤ 1/20 →
        r.population_type = "Infinita" ∧ r.adjusted_std = none)) ∧
    (∃ r, BinomialDistribution.calculate n p x none = .ok r ∧
      r.population_type = "Infinita" ∧ r.adjusted_std = none) := by
  have hv1 : BinomialDistribution.validate_inputs n p x (some N0) = none :=
    bin_validate_none n p x (some N0) hn hp0 hp1 hx
      (fun M hM => by injection hM with h; omega)
  have hv2 : BinomialDistribution.validate_inputs n p x none = none :=
    bin_validate_none n p x none hn hp0 hp1 hx (fun M hM => by cases hM)
  have hN0ne : ¬((N0 : ℚ) - 1 = 0) := by
    have : (2 : ℚ) ≤ (N0 : ℚ) := by exact_mod_cast hN2
    intro h
    linarith
  constructor
  · by_cases hr : (1/20 : ℚ) < (n : ℚ) / (N0 : ℚ)
    · have hs : BinomialDistribution.calculate_std n p (some N0) =
          .ok (BinomialDistribution.calculate_variance n p,
            some (BinomialDistribution.calculate_variance n p *
              (((N0 : ℚ) - (n : ℚ)) / ((N0 : ℚ) - 1)))) := by
        unfold BinomialDistribution.calculate_std
        simp only [if_pos hr, if_neg hN0ne]
      refine ⟨_, bin_calculate_eq n p x (some N0) _ _ hv1 hs, fun _ => ⟨?_, ?_⟩,
        fun hc => absurd hr (not_lt.mpr hc)⟩
      · simp only [BinomialDistribution.determine_population_type]
        rw [if_pos (by simpa using hr)]
      · simp only
    · have hle := not_lt.mp hr
      have hs : BinomialDistribution.calculate_std n p (some N0) =
          .ok (BinomialDistribution.calculate_variance n p, none) := by
        unfold BinomialDistribution.calculate_std
        simp only [if_neg hr]
      refine ⟨_, bin_calculate_eq n p x (some N0) _ _ hv1 hs,
        fun hc => absurd hc hr, fun _ => ⟨?_, ?_⟩⟩
      · simp only [BinomialDistribution.determine_population_type]
        rw [if_neg (by simpa using hr)]
      · simp only
  · have hs : BinomialDistribution.calculate_std n p none =
        .ok (BinomialDistribution.calculate_variance n p, none) := rfl
    refine ⟨_, bin_calculate_eq n p x none _ _ hv2 hs, ?_, ?_⟩
    · simp [BinomialDistribution.determine_population_type]
    · simp only

/-- C4 witness: the amended statement at `n = 1, p = 1/2, N = 2`
(`n/N = 1/2 > 0.05`, nonzero adjusted std). -/
theorem C4_witness :
    (∃ r, BinomialDistribution.calculate 1 (1/2) none (some 2) = .ok r ∧
      ((1/20 : ℚ) < ((1 : ℤ) : ℚ) / ((2 : ℤ) : ℚ) →
        r.population_type = "Finita" ∧
        r.adjusted_std =
          (if BinomialDistribution.calculate_variance 1 (1/2) *
              ((((2 : ℤ) : ℚ) - ((1 : ℤ) : ℚ)) / (((2 : ℤ) : ℚ) - 1)) = 0 then none
           else some (roundSqrt6 1 (BinomialDistribution.calculate_variance 1 (1/2) *
              ((((2 : ℤ) : ℚ) - ((1 : ℤ) : ℚ)) / (((2 : ℤ) : ℚ) - 1)))))) ∧
      (((1 : ℤ) : ℚ) / ((2 : ℤ) : ℚ) ≤ 1/20 →
        r.population_type = "Infinita" ∧ r.adjusted_std = none)) ∧
    (∃ r, BinomialDistribution.calculate 1 (1/2) none none = .ok r ∧
      r.population_type = "Infinita" ∧ r.adjusted_std = none) :=
  C4_amended_finite_population_adjusted_std 1 2 (1/2) none (by omega)
    (by norm_num) (by norm_num) (fun x0 hx0 => by cases hx0) (by omega) (by omega)

/-- C6: for valid `(n, p)` the binomial statistics are the closed forms
`mean = n·p`, `variance = n·p·(1−p)`, `std = √variance` (represented by its
radicand), `skewness = (1−2p)/√(npq)` (represented as
`(1−2p, 1/(npq)) ↦ (1−2p)·√(1/(npq))`), excess kurtosis
`(1−6p(1−p))/(np(1−p))`, with skewness and kurtosis both `0` at
`p ∈ {0, 1}`; and `calculate(n=10, p=0.5, x=5)` reports `mean = 5.0`,
`std = 1.581139 ≈ 1.5811` and `probability_x = 0.246094`. -/
theorem C6_binomial_statistics (n : ℤ) (p : ℚ)
    (hn : 0 < n) (hp0 : 0 ≤ p) (hp1 : p ≤ 1) :
    BinomialDistribution.calculate_mean n p = (n : ℚ) * p ∧
    BinomialDistribution.calculate_variance n p = (n : ℚ) * p * (1 - p) ∧
    BinomialDistribution.calculate_std n p none =
      .ok ((n : ℚ) * p * (1 - p), none) ∧
    ((p = 0 ∨ p = 1) →
      BinomialDistribution.calculate_skewness n p = (0, 1) ∧
      BinomialDistribution.calculate_kurtosis n p = 0) ∧
    (p ≠ 0 → p ≠ 1 →
      BinomialDistribution.calculate_skewness n p =
        (1 - 2 * p, 1 / ((n : ℚ) * p * (1 - p))) ∧
      BinomialDistribution.calculate_kurtosis n p =
        (1 - 6 * p * (1 - p)) / ((n : ℚ) * p * (1 - p))) ∧
    (BinomialDistribution.calculate 10 (1/2) (some 5) none).map
      (fun r => (r.mean, r.std, r.probability_x)) =
      .ok (5, 1581139/1000000, some (246094/1000000)) := by
  refine ⟨rfl, rfl, rfl, fun h => ?_, fun h0 h1 => ?_, ?_⟩
  · constructor
    · unfold BinomialDistribution.calculate_skewness
      rw [if_pos h]
    · unfold BinomialDistribution.calculate_kurtosis
      rw [if_pos h]
  · constructor
    · unfold BinomialDistribution.calculate_skewness
      rw [if_neg (by tauto)]
    · unfold BinomialDistribution.calculate_kurtosis
      rw [if_neg (by tauto)]
  · have hv : BinomialDistribution.validate_inputs 10 (1/2) (some 5) none = none := by
      unfold BinomialDistribution.validate_inputs
      norm_num
    have hs : BinomialDistribution.calculate_std 10 (1/2) none =
        .ok (BinomialDistribution.calculate_variance 10 (1/2), none) := rfl
    rw [bin_calculate_eq 10 (1/2) (some 5) none _ _ hv hs]
    have hmean : BinomialDistribution.calculate_mean 10 (1/2) = 5 := by
      unfold BinomialDistribution.calculate_mean
      norm_num
    have hvar : BinomialDistribution.calculate_variance 10 (1/2) = 5/2 := by
      unfold BinomialDistribution.calculate_variance
      norm_num
    have hprob : BinomialDistribution.calculate_probability 10 (1/2) 5 = 63/256 := by
      unfold BinomialDistribution.calculate_probability
      rw [if_pos (by omega)]
      rw [show ((10 : ℤ).toNat.choose (5 : ℤ).toNat) = 252 from by decide]
      norm_num [show Int.toNat 5 = 5 from rfl]
    have h1 : pyRound 5 6 = 5 := by
      have hf : ⌊(5 : ℚ) * (10 : ℚ) ^ 6⌋ = 5000000 := by
        norm_num [Int.floor_eq_iff]
      simp only [pyRound, hf]
      norm_num
    have h2 : roundSqrt6 1 (5/2) = 1581139/1000000 := by
      have hf : ⌊(1 : ℚ) ^ 2 * (5/2) * 10 ^ 12⌋ = 2500000000000 := by
        norm_num [Int.floor_eq_iff]
      have hq : floorSqrtQ ((1 : ℚ) ^ 2 * (5/2) * 10 ^ 12) = 1581138 := by
        simp only [floorSqrtQ, hf]
        decide
      simp only [roundSqrt6, hq]
      norm_num
    have h3 : pyRound (63/256) 6 = 246094/1000000 := by
      have hf : ⌊(63/256 : ℚ) * (10 : ℚ) ^ 6⌋ = 246093 := by
        norm_num [Int.floor_eq_iff]
      simp only [pyRound, hf]
      norm_num
    simp only [Except.map, Option.map, hmean, hvar, hprob, h1, h2, h3]

/-- C6 witness: the general part instantiated at `n = 10, p = 1/2`. -/
theorem C6_witness :
    BinomialDistribution.calculate_mean 10 (1/2) = ((10 : ℤ) : ℚ) * (1/2) ∧
    BinomialDistribution.calculate_variance 10 (1/2) =
      ((10 : ℤ) : ℚ) * (1/2) * (1 - 1/2) ∧
    BinomialDistribution.calculate_std 10 (1/2) none =
      .ok (((10 : ℤ) : ℚ) * (1/2) * (1 - 1/2), none) ∧
    (((1/2 : ℚ) = 0 ∨ (1/2 : ℚ) = 1) →
      BinomialDistribution.calculate_skewness 10 (1/2) = (0, 1) ∧
      BinomialDistribution.calculate_kurtosis 10 (1/2) = 0) ∧
    ((1/2 : ℚ) ≠ 0 → (1/2 : ℚ) ≠ 1 →
      BinomialDistribution.calculate_skewness 10 (1/2) =
        (1 - 2 * (1/2), 1 / (((10 : ℤ) : ℚ) * (1/2) * (1 - 1/2))) ∧
      BinomialDistribution.calculate_kurtosis 10 (1/2) =
        (1 - 6 * (1/2) * (1 - 1/2)) / (((10 : ℤ) : ℚ) * (1/2) * (1 - 1/2))) ∧
    (BinomialDistribution.calculate 10 (1/2) (some 5) none).map
      (fun r => (r.mean, r.std, r.probability_x)) =
      .ok (5, 1581139/1000000, some (246094/1000000)) :=
  C6_binomial_statistics 10 (1/2) (by omega) (by norm_num) (by norm_num)

/-- Helper: if the median loop returns `some m`, then `m` is the first index
from the start `x` whose cumulative sum reaches `1/2` (the accumulator is
the prefix sum up to `x`). -/
theorem firstReach_sound (f : ℕ → ℚ) :
    ∀ (fuel x m : ℕ),
      HypergeometricDistribution.firstReach f fuel
        (∑ i in Finset.range x, f i) x = some m →
      x ≤ m ∧ m < x + fuel ∧ 1/2 ≤ ∑ i in Finset.range (m + 1), f i ∧
        ∀ y, x ≤ y → y < m → ∑ i in Finset.range (y + 1), f i < 1/2 := by
  intro fuel
  induction fuel with
  | zero =>
    intro x m h
    exact absurd h (by simp [HypergeometricDistribution.firstReach])
  | succ fuel ih =>
    intro x m h
    unfold HypergeometricDistribution.firstReach at h
    by_cases hc : (1 : ℚ)/2 ≤ (∑ i in Finset.range x, f i) + f x
    · rw [if_pos hc] at h
      injection h with h
      subst h
      refine ⟨le_refl x, by omega, ?_, fun y hy1 hy2 => absurd hy1 (by omega)⟩
      rwa [Finset.sum_range_succ]
    · rw [if_neg hc] at h
      rw [← Finset.sum_range_succ] at h
      obtain ⟨h1, h2, h3, h4⟩ := ih (x + 1) m h
      refine ⟨by omega, by omega, h3, fun y hy1 hy2 => ?_⟩
      rcases eq_or_lt_of_le hy1 with heq | hlt
      · subst heq
        rw [Finset.sum_range_succ]
        exact lt_of_not_le hc
      · exact h4 y (by omega) hy2

/-- Helper: if the total over the scanned window reaches `1/2`, the median
loop terminates with a hit (never falls through to the fallback). -/
theorem firstReach_some (f : ℕ → ℚ) :
    ∀ (fuel x : ℕ), 1 ≤ fuel →
      1/2 ≤ ∑ i in Finset.range (x + fuel), f i →
      ∃ m, HypergeometricDistribution.firstReach f fuel
        (∑ i in Finset.range x, f i) x = some m := by
  intro fuel
  induction fuel with
  | zero => omega
  | succ fuel ih =>
    intro x _ htot
    unfold HypergeometricDistribution.firstReach
    by_cases hc : (1 : ℚ)/2 ≤ (∑ i in Finset.range x, f i) + f x
    · rw [if_pos hc]
      exact ⟨x, rfl⟩
    · rw [if_neg hc]
      rw [← Finset.sum_range_succ]
      cases fuel with
      | zero =>
        refine absurd ?_ hc
        rw [← Finset.sum_range_succ]
        exact htot
      | succ fuel2 =>
        apply ih (x + 1) (by omega)
        have harith : x + 1 + (fuel2 + 1) = x + (fuel2 + 1 + 1) := by omega
        rw [harith]
        exact htot

/-- Helper (truncated Vandermonde): the hypergeometric numerators over the
enumerated support `0..min(n,K)` sum to `C(N,n)`. -/
theorem vandermonde_truncated (N K n : ℕ) (hK : K ≤ N) (hn : n ≤ N) :
    ∑ i in Finset.range (min n K + 1), K.choose i * (N - K).choose (n - i) =
      N.choose n := by
  have h1 : ∑ i in Finset.range (n + 1), K.choose i * (N - K).choose (n - i) =
      N.choose n := by
    have hv := Nat.add_choose_eq K (N - K) n
    rw [Nat.add_sub_cancel' hK] at hv
    rw [hv, Finset.Nat.sum_antidiagonal_eq_sum_range_succ_mk]
  rw [← h1]
  apply Finset.sum_subset
  · apply Finset.range_subset.mpr
    omega
  · intro i hi hni
    have h2 : K < i := by
      simp only [Finset.mem_range] at hi hni
      omega
    rw [Nat.choose_eq_zero_of_lt h2, zero_mul]

/-- Helper: the hypergeometric pmf sums to `1` over `0..min(n,K)`. -/
theorem hyper_cdf_total (N K n : ℕ) (hK : K ≤ N) (hn : n ≤ N) :
    HypergeometricDistribution.cdf N K n (min n K) = 1 := by
  have hpos : (0 : ℚ) < (N.choose n : ℚ) := by
    exact_mod_cast Nat.choose_pos hn
  unfold HypergeometricDistribution.cdf
    HypergeometricDistribution.calculate_probability
  have hcong : ∀ i ∈ Finset.range (min n K + 1),
      (if i ≤ n then ((K.choose i * (N - K).choose (n - i) : ℕ) : ℚ) /
        (N.choose n : ℚ) else 0) =
      ((K.choose i * (N - K).choose (n - i) : ℕ) : ℚ) / (N.choose n : ℚ) := by
    intro i hi
    rw [if_pos]
    simp only [Finset.mem_range] at hi
    omega
  rw [Finset.sum_congr rfl hcong, ← Finset.sum_div, ← Nat.cast_sum,
    vandermonde_truncated N K n hK hn]
  exact div_self (ne_of_gt hpos)

/-- C5: for every valid `(N, K, n)`, `calculate_median` returns the smallest
`x` in `0..min(n, K)` at which the cumulative pmf sum, accumulated in
ascending order, first reaches `≥ 0.5` (the `int(mean)` fallback is never
taken because the pmf sums to `1` over the enumerated support). -/
theorem C5_median_is_least_reaching_half (N K n : ℕ)
    (hN : 1 ≤ N) (hK : K ≤ N) (hn : 1 ≤ n) (hnN : n ≤ N) :
    HypergeometricDistribution.calculate_median N K n ≤ min n K ∧
    1/2 ≤ HypergeometricDistribution.cdf N K n
      (HypergeometricDistribution.calculate_median N K n) ∧
    ∀ y, y < HypergeometricDistribution.calculate_median N K n →
      HypergeometricDistribution.cdf N K n y < 1/2 := by
  have htot : (1 : ℚ)/2 ≤ ∑ i in Finset.range (0 + (min n K + 1)),
      HypergeometricDistribution.calculate_probability N K n i := by
    have h := hyper_cdf_total N K n hK hnN
    unfold HypergeometricDistribution.cdf at h
    rw [zero_add, h]
    norm_num
  obtain ⟨m, hm⟩ := firstReach_some
    (HypergeometricDistribution.calculate_probability N K n)
    (min n K + 1) 0 (by omega) htot
  obtain ⟨h1, h2, h3, h4⟩ := firstReach_sound
    (HypergeometricDistribution.calculate_probability N K n)
    (min n K + 1) 0 m hm
  have hmed : HypergeometricDistribution.calculate_median N K n = m := by
    unfold HypergeometricDistribution.calculate_median
    rw [Finset.sum_range_zero] at hm
    rw [hm]
    rfl
  rw [hmed]
  refine ⟨by omega, ?_, fun y hy => ?_⟩
  · show (1 : ℚ)/2 ≤ ∑ i in Finset.range (m + 1),
      HypergeometricDistribution.calculate_probability N K n i
    exact h3
  · show (∑ i in Finset.range (y + 1),
      HypergeometricDistribution.calculate_probability N K n i) < 1/2
    exact h4 y (by omega) hy

/-- C5 witness at `(N, K, n) = (50, 20, 10)` (the spec's Scenario 2). -/
theorem C5_witness :
    HypergeometricDistribution.calculate_median 50 20 10 ≤ min 10 20 ∧
    1/2 ≤ HypergeometricDistribution.cdf 50 20 10
      (HypergeometricDistribution.calculate_median 50 20 10) ∧
    ∀ y, y < HypergeometricDistribution.calculate_median 50 20 10 →
      HypergeometricDistribution.cdf 50 20 10 y < 1/2 :=
  C5_median_is_least_reaching_half 50 20 10 (by omega) (by omega) (by omega)
    (by omega)
